import Mathlib

/-!
Verification of the retry/backoff/degrade news fetcher, the sentiment
aggregation, the forecast adjustment and the empty-history check of
`stock_forecast_with_sentiment.py`, against the repository specification.

Modelling choices (shallow embedding):
* Sentiment scores and prices are rationals (the source computes exact
  sums, one division, and one multiplication on them).
* The external headline provider is a function from the call index to the
  outcome of that call: a structured response (possibly carrying an error
  code) or a raised transport exception with a message.  The query string,
  language, sort order and page size never influence the control flow of
  `fetch_ticker_news_with_retry`, so they are folded into that function.
* The VADER sentiment analyzer is an external library; it enters the model
  as a parameter `scorer : String → ℚ` applied to exactly the text the
  source builds.
* Sleeping is observable only through the recorded trace: each loop
  iteration is logged as a `FetchAttempt` carrying the attempt index, the
  seconds slept before the call, and whether date filters were sent.
-/

namespace StockSent

/-- An article as delivered by the provider: every field the source reads
via `art.get(...)`; `none` stands for an absent or `None` value. -/
structure Article where
  title : Option String
  description : Option String
  url : Option String
  sourceName : Option String
  publishedAt : Option String
deriving Repr, DecidableEq

/-- The dict appended to `results` for each article (lines 164-171). -/
structure OutArticle where
  title : String
  description : String
  url : Option String
  sourceName : Option String
  publishedAt : Option String
  sentiment : ℚ
deriving Repr, DecidableEq

/-- A structured provider response: optional error `code`, `message`, and
the article list; line 146 normalises an absent or `None` article field
to the empty list, which the `articles` field here already is. -/
structure ApiResp where
  code : Option String
  message : String
  articles : List Article
deriving Repr, DecidableEq

/-- Outcome of one call to `newsapi.get_everything`: a response, or a
raised exception whose `str(e)` is `msg`. -/
inductive CallResult where
  | resp (r : ApiResp)
  | exn (msg : String)
deriving Repr, DecidableEq

/-- One iteration of the retry loop as the spec's FetchAttempt record:
attempt index, whether the from/to date parameters were included, and the
backoff delay (seconds) slept before the call. -/
structure FetchAttempt where
  attempt : Nat
  datesIncluded : Bool
  delay : Nat
deriving Repr, DecidableEq

/-- What `fetch_ticker_news_with_retry` produces: the article/sentiment
pair it returns, plus the trace of loop iterations performed. -/
structure FetchResult where
  articles : List OutArticle
  sentiment : ℚ
  trace : List FetchAttempt
deriving Repr, DecidableEq

/-- `pat in hay` on Python strings: substring containment. -/
def strContains (hay pat : String) : Bool :=
  decide (List.IsInfix pat.toList hay.toList)

/-- Python truthiness of `resp.get("code")`. -/
def codeTruthy : Option String → Bool
  | none => false
  | some s => !(s == "")

/-- Line 137: `code == "parameterInvalid" and "far in the past" in msg`. -/
def isPastRejection (code : Option String) (message : String) : Bool :=
  code == some "parameterInvalid" && strContains message "far in the past"

/-- Line 180: `("parameterInvalid" in msg) or ("too far in the past" in msg)`
on the text of a raised exception. -/
def exnIsPlanRejection (msg : String) : Bool :=
  strContains msg "parameterInvalid" || strContains msg "too far in the past"

/-- A provider call that would take the success path with at least one
article (code falsy, article list nonempty). -/
def isNonemptySuccess : CallResult → Bool
  | .resp r => !codeTruthy r.code && !r.articles.isEmpty
  | .exn _ => false

/-- Lines 114-117: seconds slept before the call of `attempt`
(`2 ** attempt`, only when `attempt > 0`). -/
def delayFor (attempt : Nat) : Nat :=
  if attempt > 0 then 2 ^ attempt else 0

/-- Python `"...".strip(". ")`: remove leading and trailing characters
that are a period or a space. -/
def stripDotSpace (s : String) : String :=
  let p := fun c => c == '.' || c == ' '
  String.mk (((s.toList.dropWhile p).reverse.dropWhile p).reverse)

/-- The claimed fragment shape: title and description joined with a
period-and-space separator (stated from the spec, for comparison). -/
def claimedFragment (title desc : String) : String :=
  title ++ ". " ++ desc

/-- Line 161: the combined text, the claimed fragment with leading and
trailing periods and spaces stripped. -/
def combinedText (title desc : String) : String :=
  stripDotSpace (claimedFragment title desc)

/-- Lines 158-171 for one article: effective title/description (absent or
`None` becomes `""`), the combined text, its score, and the output dict. -/
def mkOutArticle (scorer : String → ℚ) (a : Article) : OutArticle :=
  let title := a.title.getD ""
  let desc := a.description.getD ""
  let score := scorer (combinedText title desc)
  { title := title
    description := desc
    url := a.url
    sourceName := a.sourceName
    publishedAt := a.publishedAt
    sentiment := score }

/-- Line 173: `(sum(sentiments) / len(sentiments)) if sentiments else 0.0`. -/
def avgSentiment (xs : List ℚ) : ℚ :=
  if xs.isEmpty then 0 else xs.sum / xs.length

/-- Lines 157-175: score every article, build the result dicts, average
the scores, and return.  The trace is filled in by the caller. -/
def processArticles (scorer : String → ℚ) (articles : List Article) : FetchResult :=
  let results := articles.map (mkOutArticle scorer)
  let sentiments := results.map OutArticle.sentiment
  ⟨results, avgSentiment sentiments, []⟩

/-- Prepend one loop iteration to a result's trace. -/
def consTrace (step : FetchAttempt) (r : FetchResult) : FetchResult :=
  ⟨r.articles, r.sentiment, step :: r.trace⟩

/-- The body of `for attempt in range(max_retries)` (lines 112-188).
`fuel` is the number of loop iterations left (`max_retries - attempt` in
any real run); `tried` is the `tried_without_dates` flag.  Each iteration
makes exactly one provider call, at index `attempt`; a Python `continue`
is the recursive call with `attempt + 1` and one unit of fuel less, and
falling off the loop end is the `fuel = 0` case (line 188: `return [], 0.0`). -/
def fetchLoop (provider : Nat → CallResult) (scorer : String → ℚ)
    (maxRetries : Nat) : Nat → Nat → Bool → FetchResult
  | _, 0, _ => ⟨[], 0, []⟩
  | attempt, fuel + 1, tried =>
    consTrace ⟨attempt, !tried, delayFor attempt⟩
      (match provider attempt with
      | .exn msg =>
        if exnIsPlanRejection msg && !tried then
          fetchLoop provider scorer maxRetries (attempt + 1) fuel true
        else if attempt == maxRetries - 1 then
          ⟨[], 0, []⟩
        else
          fetchLoop provider scorer maxRetries (attempt + 1) fuel tried
      | .resp r =>
        if codeTruthy r.code then
          if isPastRejection r.code r.message && !tried then
            fetchLoop provider scorer maxRetries (attempt + 1) fuel true
          else if attempt == maxRetries - 1 then
            ⟨[], 0, []⟩
          else
            fetchLoop provider scorer maxRetries (attempt + 1) fuel tried
        else if r.articles.isEmpty && !tried then
          fetchLoop provider scorer maxRetries (attempt + 1) fuel true
        else if r.articles.isEmpty && decide (attempt < maxRetries - 1) then
          fetchLoop provider scorer maxRetries (attempt + 1) fuel tried
        else
          processArticles scorer r.articles)

/-- `fetch_ticker_news_with_retry` (lines 86-188).  The ticker, the
caller-supplied dates (never read by the source) and the page size do not
influence the control flow; the loop starts at attempt 0 with the date
window applied (`tried_without_dates = False`). -/
def fetch_ticker_news_with_retry (provider : Nat → CallResult)
    (scorer : String → ℚ) (ticker : String)
    (start_date end_date : Option String) (page_size maxRetries : Nat) :
    FetchResult :=
  fetchLoop provider scorer maxRetries 0 maxRetries false

/-- `fetch_ticker_news` (lines 212-221): compatibility wrapper, discards
the provided dates and calls the retry fetcher with `None, None` and the
default `max_retries = 3`. -/
def fetch_ticker_news (provider : Nat → CallResult) (scorer : String → ℚ)
    (ticker : String) (start_date end_date : Option String)
    (page_size : Nat) : FetchResult :=
  fetch_ticker_news_with_retry provider scorer ticker none none page_size 3

/-- `adjust_forecast` (lines 224-231): pointwise `forecast * (1 + s)` on a
time-indexed series, index preserved. -/
def adjust_forecast (forecast : List (Nat × ℚ)) (sentiment_score : ℚ) :
    List (Nat × ℚ) :=
  forecast.map (fun p => (p.1, p.2 * (1 + sentiment_score)))

/-- The error taxonomy of the forecasting path.  `emptyInputError` is the
spec's `EmptyInputError`, realised at line 199 as
`ValueError(f"No data fetched for ticker '...'")`. -/
inductive ForecastError where
  | emptyInputError (msg : String)
deriving Repr, DecidableEq

/-- Modelled from the spec (§4.1) for the external pandas call
`df['Close'].resample('ME').mean().dropna()`: observations pre-keyed by
month, grouped by key in ascending order, one arithmetic mean per
nonempty month. -/
def resampleMonthly (obs : List (Nat × ℚ)) : List (Nat × ℚ) :=
  let keys := ((obs.map Prod.fst).eraseDups).mergeSort (fun a b => decide (a ≤ b))
  keys.map (fun k =>
    let vs := (obs.filter (fun p => p.1 == k)).map Prod.snd
    (k, vs.sum / vs.length))

/-- `fetch_and_forecast` (lines 191-209).  The downloaded price history is
the input `df`; the Holt-Winters solver is external and enters as the
parameter `fit`.  An empty download raises the typed empty-input error;
otherwise the monthly resample is fit and a forecast returned. -/
def fetch_and_forecast (fit : List (Nat × ℚ) → List ℚ) (ticker : String)
    (df : List (Nat × ℚ)) : Except ForecastError (List (Nat × ℚ) × List ℚ) :=
  if df.isEmpty then
    Except.error (ForecastError.emptyInputError
      ("No data fetched for ticker '" ++ ticker ++ "'"))
  else
    let monthly := resampleMonthly df
    Except.ok (monthly, fit monthly)

/-- A provider rejection of the recognized "too far in the past" kind:
truthy code `parameterInvalid`, message containing "far in the past". -/
def pastRejectionResp : CallResult :=
  CallResult.resp ⟨some "parameterInvalid",
    "You are trying to request results too far in the past.", []⟩

/-- A concrete article used in counterexamples and witnesses. -/
def sampleArticle : Article :=
  ⟨some "Tesla stock rises", some "Shares climbed.",
    some "https://example.com/a", some "Example", some "2025-01-01"⟩

/-- A provider that returns the recognized past-window rejection on its
first call and a plain success carrying `arts` on every later call. -/
def rejectThenSuccessProvider (arts : List Article) : Nat → CallResult :=
  fun i => if i == 0 then pastRejectionResp
    else CallResult.resp ⟨none, "", arts⟩

@[simp]
lemma consTrace_articles (s : FetchAttempt) (r : FetchResult) :
    (consTrace s r).articles = r.articles := rfl

@[simp]
lemma consTrace_sentiment (s : FetchAttempt) (r : FetchResult) :
    (consTrace s r).sentiment = r.sentiment := rfl

@[simp]
lemma consTrace_trace (s : FetchAttempt) (r : FetchResult) :
    (consTrace s r).trace = s :: r.trace := rfl

/-- Claim C6: `adjust_forecast` is linear and total: the adjusted series has
the same length and the same index sequence as the input, and the value at
every index `i` is the input value at `i` multiplied by `(1 + s)`, for any
rational `s` (no clamping); being a Lean function of this type it is
defined on every input, mirroring the pure total source function. -/
theorem adjust_forecast_linear (f : List (Nat × ℚ)) (s : ℚ) (i : Nat)
    (h : i < f.length) :
    (adjust_forecast f s).length = f.length ∧
    (adjust_forecast f s)[i]? =
      some ((f.get ⟨i, h⟩).1, (f.get ⟨i, h⟩).2 * (1 + s)) ∧
    (adjust_forecast f s).map Prod.fst = f.map Prod.fst := by
  refine ⟨by simp [adjust_forecast], ?_, by simp [adjust_forecast]⟩
  rw [adjust_forecast, List.getElem?_map, List.getElem?_eq_getElem h]
  simp [List.get_eq_getElem]

/-- Witness for C6 at the series `[(5, 3)]`, sentiment `2`, index `0`. -/
theorem adjust_forecast_linear_witness :
    0 < [((5 : Nat), (3 : ℚ))].length ∧
    ((adjust_forecast [((5 : Nat), (3 : ℚ))] 2).length =
        [((5 : Nat), (3 : ℚ))].length ∧
      (adjust_forecast [((5 : Nat), (3 : ℚ))] 2)[0]? = some (5, 3 * (1 + 2)) ∧
      (adjust_forecast [((5 : Nat), (3 : ℚ))] 2).map Prod.fst =
        [((5 : Nat), (3 : ℚ))].map Prod.fst) :=
  ⟨by decide, adjust_forecast_linear [((5 : Nat), (3 : ℚ))] 2 0 (by decide)⟩

/-- Claim C7: the sentiment aggregation is the arithmetic mean: on any
nonempty score list it is the sum divided by the count, and on the empty
list it is exactly 0; as a Lean function it is total, mirroring the
source expression that never fails. -/
theorem avgSentiment_is_mean (x : ℚ) (xs : List ℚ) :
    avgSentiment (x :: xs) = (x :: xs).sum / (x :: xs).length ∧
    avgSentiment ([] : List ℚ) = 0 :=
  ⟨by simp [avgSentiment], by simp [avgSentiment]⟩

/-- Claim C9: an empty downloaded price history makes `fetch_and_forecast`
fail with exactly the typed empty-input error (the `ValueError` of line
199, the spec's `EmptyInputError`) and with nothing else on that path,
for every ticker and every solver. -/
theorem fetch_and_forecast_empty_input (fit : List (Nat × ℚ) → List ℚ)
    (ticker : String) :
    fetch_and_forecast fit ticker [] =
      Except.error (ForecastError.emptyInputError
        ("No data fetched for ticker '" ++ ticker ++ "'")) := by
  simp [fetch_and_forecast]

/-- Claim C10: `fetch_ticker_news` discards its `start_date` and
`end_date` arguments: two calls differing only in those arguments return
identical results, for every provider behavior, scorer, ticker and page
size. -/
theorem fetch_ticker_news_ignores_dates (provider : Nat → CallResult)
    (scorer : String → ℚ) (ticker : String)
    (sd1 ed1 sd2 ed2 : Option String) (page_size : Nat) :
    fetch_ticker_news provider scorer ticker sd1 ed1 page_size =
      fetch_ticker_news provider scorer ticker sd2 ed2 page_size := rfl

/-- Claim C8, counterexample: for an article titled "Good news" with an
absent description the source strips the trailing ". " before scoring, so
the scorer receives "Good news", not the claimed fragment "Good news. ";
a scorer that recognises only the claimed fragment scores 0, not 1. -/
theorem fragment_strip_counterexample :
    claimedFragment "Good news" "" = "Good news. " ∧
    combinedText "Good news" "" = "Good news" ∧
    (mkOutArticle (fun t => if t == "Good news. " then (1 : ℚ) else 0)
        ⟨some "Good news", none, none, none, none⟩).sentiment = 0 ∧
    combinedText "Good news" "" ≠ claimedFragment "Good news" "" := by
  refine ⟨rfl, by decide, ?_, by decide⟩
  simp [mkOutArticle, combinedText, claimedFragment, stripDotSpace]

/-- Claim C8, amended: the fragment passed to the scorer is the title and
description joined with ". " (absent description as empty string) and
then stripped of leading and trailing periods and spaces; for any scorer
meeting the spec's bound (the lexicon scorer is an external library,
modelled by that bound) the recorded compound score lies in [-1, 1]. -/
theorem fragment_stripped_and_bounded (scorer : String → ℚ) (a : Article)
    (hb : ∀ t, -1 ≤ scorer t ∧ scorer t ≤ 1) :
    (mkOutArticle scorer a).sentiment =
      scorer (stripDotSpace
        (claimedFragment (a.title.getD "") (a.description.getD ""))) ∧
    -1 ≤ (mkOutArticle scorer a).sentiment ∧
    (mkOutArticle scorer a).sentiment ≤ 1 :=
  ⟨rfl, (hb _).1, (hb _).2⟩

/-- Witness for the amended C8 with the constant-zero scorer and a
concrete article. -/
theorem fragment_stripped_and_bounded_witness :
    (∀ t : String, -1 ≤ (0 : ℚ) ∧ (0 : ℚ) ≤ 1) ∧
    ((mkOutArticle (fun _ => (0 : ℚ)) ⟨some "T", some "D", none, none, none⟩).sentiment =
        (fun _ : String => (0 : ℚ)) (stripDotSpace (claimedFragment "T" "D")) ∧
      -1 ≤ (mkOutArticle (fun _ => (0 : ℚ)) ⟨some "T", some "D", none, none, none⟩).sentiment ∧
      (mkOutArticle (fun _ => (0 : ℚ)) ⟨some "T", some "D", none, none, none⟩).sentiment ≤ 1) :=
  ⟨fun _ => ⟨by norm_num, by norm_num⟩,
    fragment_stripped_and_bounded (fun _ => (0 : ℚ))
      ⟨some "T", some "D", none, none, none⟩
      (fun _ => ⟨by norm_num, by norm_num⟩)⟩

lemma fetchLoop_trace_head (provider : Nat → CallResult) (scorer : String → ℚ)
    (maxRetries attempt fuel : Nat) (tried : Bool) :
    (fetchLoop provider scorer maxRetries attempt (fuel + 1) tried).trace.head? =
      some ⟨attempt, !tried, delayFor attempt⟩ := by
  rw [fetchLoop]
  simp

/-- Claim C5: on a success carrying zero articles, the loop (a) with the
date window still applied drops the date filtering and retries; (b) with
the window already dropped and attempts remaining, retries, the attempt
index advancing and the remaining budget shrinking by one; (c) with the
window dropped and no attempts remaining, terminates with the empty list
and sentiment 0. -/
theorem empty_success_transitions (provider : Nat → CallResult)
    (scorer : String → ℚ) (maxRetries attempt fuel : Nat) (r : ApiResp)
    (hp : provider attempt = CallResult.resp r)
    (hc : codeTruthy r.code = false)
    (ha : r.articles = []) :
    fetchLoop provider scorer maxRetries attempt (fuel + 1) false =
      consTrace ⟨attempt, true, delayFor attempt⟩
        (fetchLoop provider scorer maxRetries (attempt + 1) fuel true) ∧
    (attempt < maxRetries - 1 →
      fetchLoop provider scorer maxRetries attempt (fuel + 1) true =
        consTrace ⟨attempt, false, delayFor attempt⟩
          (fetchLoop provider scorer maxRetries (attempt + 1) fuel true)) ∧
    (¬ attempt < maxRetries - 1 →
      fetchLoop provider scorer maxRetries attempt (fuel + 1) true =
        ⟨[], 0, [⟨attempt, false, delayFor attempt⟩]⟩) := by
  refine ⟨?_, ?_, ?_⟩
  · rw [fetchLoop, hp]
    simp [hc, ha]
  · intro hlt
    rw [fetchLoop, hp]
    simp [hc, ha, hlt]
  · intro hge
    rw [fetchLoop, hp]
    simp [hc, ha, hge, consTrace, processArticles, avgSentiment]

/-- Witness for C5: constant empty-success provider, `maxRetries = 2`,
attempt 0, one unit of remaining fuel. -/
theorem empty_success_transitions_witness :
    ((fun _ : Nat => CallResult.resp ⟨none, "", []⟩) 0 =
        CallResult.resp ⟨none, "", []⟩ ∧
      codeTruthy (none : Option String) = false ∧
      ([] : List Article) = []) ∧
    (fetchLoop (fun _ => CallResult.resp ⟨none, "", []⟩) (fun _ => 0) 2 0 (1 + 1) false =
      consTrace ⟨0, true, delayFor 0⟩
        (fetchLoop (fun _ => CallResult.resp ⟨none, "", []⟩) (fun _ => 0) 2 (0 + 1) 1 true) ∧
    (0 < 2 - 1 →
      fetchLoop (fun _ => CallResult.resp ⟨none, "", []⟩) (fun _ => 0) 2 0 (1 + 1) true =
        consTrace ⟨0, false, delayFor 0⟩
          (fetchLoop (fun _ => CallResult.resp ⟨none, "", []⟩) (fun _ => 0) 2 (0 + 1) 1 true)) ∧
    (¬ 0 < 2 - 1 →
      fetchLoop (fun _ => CallResult.resp ⟨none, "", []⟩) (fun _ => 0) 2 0 (1 + 1) true =
        ⟨[], 0, [⟨0, false, delayFor 0⟩]⟩)) :=
  ⟨⟨rfl, rfl, rfl⟩,
    empty_success_transitions (fun _ => CallResult.resp ⟨none, "", []⟩)
      (fun _ => 0) 2 0 1 ⟨none, "", []⟩ rfl rfl rfl⟩

/-- Claim C2, counterexample: after the recognized past-window rejection
on attempt 0, the unfiltered retry is preceded by a backoff delay of
`2 ^ 1 = 2` seconds (the trace's delays are `[0, 2]`, not `[0, 0]`), and
the degrade retry does consume an attempt: with `max_retries = 1` the
same provider — which would succeed on its second, unfiltered call —
yields the exhausted empty result because the rejection used up the only
attempt. -/
theorem degrade_backoff_counterexample :
    ((fetch_ticker_news_with_retry (rejectThenSuccessProvider [sampleArticle])
        (fun _ => 0) "TSLA" none none 5 3).trace.map FetchAttempt.delay) = [0, 2] ∧
    (fetch_ticker_news_with_retry (rejectThenSuccessProvider [sampleArticle])
        (fun _ => 0) "TSLA" none none 5 1).articles = [] ∧
    (fetch_ticker_news_with_retry (rejectThenSuccessProvider [sampleArticle])
        (fun _ => 0) "TSLA" none none 5 1).sentiment = 0 := by
  refine ⟨?_, ?_, ?_⟩ <;> decide

/-- Claim C2, amended: on a recognized "too far in the past" rejection
while the date window is still applied, the loop clears the date-window
flag and retries without date filters, but the retry consumes an attempt
from the retry budget (attempt index advances, remaining budget shrinks)
and, when budget remains, the unfiltered call is preceded by the backoff
delay `2 ^ (attempt + 1)` seconds. -/
theorem degrade_consumes_attempt_and_backoff (provider : Nat → CallResult)
    (scorer : String → ℚ) (maxRetries attempt f : Nat) (r : ApiResp)
    (hp : provider attempt = CallResult.resp r)
    (hc : codeTruthy r.code = true)
    (hr : isPastRejection r.code r.message = true) :
    fetchLoop provider scorer maxRetries attempt ((f + 1) + 1) false =
      consTrace ⟨attempt, true, delayFor attempt⟩
        (fetchLoop provider scorer maxRetries (attempt + 1) (f + 1) true) ∧
    (fetchLoop provider scorer maxRetries (attempt + 1) (f + 1) true).trace.head? =
      some ⟨attempt + 1, false, 2 ^ (attempt + 1)⟩ := by
  constructor
  · rw [fetchLoop, hp]
    simp [hc, hr]
  · rw [fetchLoop_trace_head]
    simp [delayFor]

/-- Witness for the amended C2: the constant past-rejection provider at
attempt 0, `maxRetries = 3`, two iterations of fuel remaining. -/
theorem degrade_consumes_attempt_and_backoff_witness :
    ((fun _ : Nat => pastRejectionResp) 0 =
        CallResult.resp ⟨some "parameterInvalid",
          "You are trying to request results too far in the past.", []⟩ ∧
      codeTruthy (some "parameterInvalid") = true ∧
      isPastRejection (some "parameterInvalid")
        "You are trying to request results too far in the past." = true) ∧
    (fetchLoop (fun _ => pastRejectionResp) (fun _ => 0) 3 0 ((0 + 1) + 1) false =
      consTrace ⟨0, true, delayFor 0⟩
        (fetchLoop (fun _ => pastRejectionResp) (fun _ => 0) 3 (0 + 1) (0 + 1) true) ∧
    (fetchLoop (fun _ => pastRejectionResp) (fun _ => 0) 3 (0 + 1) (0 + 1) true).trace.head? =
      some ⟨0 + 1, false, 2 ^ (0 + 1)⟩) :=
  ⟨⟨rfl, rfl, by decide⟩,
    degrade_consumes_attempt_and_backoff (fun _ => pastRejectionResp)
      (fun _ => 0) 3 0 0
      ⟨some "parameterInvalid",
        "You are trying to request results too far in the past.", []⟩
      rfl rfl (by decide)⟩

/-- Claim C3: with a provider that answers the first call with the
recognized past-window rejection and the second call with three articles,
the fetcher returns exactly those three articles (each carrying its
score), the mean of their scores, and its trace shows the date window on
the first call only: the second call was made without date parameters. -/
theorem reject_then_success_three_articles (scorer : String → ℚ)
    (a1 a2 a3 : Article) :
    (fetch_ticker_news_with_retry (rejectThenSuccessProvider [a1, a2, a3])
        scorer "AAPL" none none 5 3).articles =
      [mkOutArticle scorer a1, mkOutArticle scorer a2, mkOutArticle scorer a3] ∧
    (fetch_ticker_news_with_retry (rejectThenSuccessProvider [a1, a2, a3])
        scorer "AAPL" none none 5 3).sentiment =
      avgSentiment [(mkOutArticle scorer a1).sentiment,
        (mkOutArticle scorer a2).sentiment, (mkOutArticle scorer a3).sentiment] ∧
    (fetch_ticker_news_with_retry (rejectThenSuccessProvider [a1, a2, a3])
        scorer "AAPL" none none 5 3).trace.map FetchAttempt.datesIncluded =
      [true, false] := by
  refine ⟨rfl, rfl, rfl⟩

lemma fetchLoop_exn_step (provider : Nat → CallResult) (scorer : String → ℚ)
    (maxRetries attempt fuel : Nat) (tried : Bool) (msg : String)
    (hp : provider attempt = CallResult.exn msg)
    (hm : exnIsPlanRejection msg = false)
    (hlast : (attempt == maxRetries - 1) = false) :
    fetchLoop provider scorer maxRetries attempt (fuel + 1) tried =
      consTrace ⟨attempt, !tried, delayFor attempt⟩
        (fetchLoop provider scorer maxRetries (attempt + 1) fuel tried) := by
  rw [fetchLoop, hp]
  simp [hm, hlast]

lemma fetchLoop_exn_last (provider : Nat → CallResult) (scorer : String → ℚ)
    (maxRetries attempt fuel : Nat) (tried : Bool) (msg : String)
    (hp : provider attempt = CallResult.exn msg)
    (hm : exnIsPlanRejection msg = false)
    (hlast : (attempt == maxRetries - 1) = true) :
    fetchLoop provider scorer maxRetries attempt (fuel + 1) tried =
      ⟨[], 0, [⟨attempt, !tried, delayFor attempt⟩]⟩ := by
  rw [fetchLoop, hp]
  simp [hm, hlast, consTrace]

/-- Claim C4: with a provider raising a transport exception (one not
classified as a plan rejection) on every call and `max_retries = 3`, the
fetcher returns the empty list with sentiment 0 after three attempts; the
trace records delays `[0, 2, 4]`, i.e. exactly two backoff delays — before
the second and before the third attempt — with the second strictly
greater than the first. -/
theorem transport_failures_exhaust (scorer : String → ℚ) (msgs : Nat → String)
    (h : ∀ i, exnIsPlanRejection (msgs i) = false) :
    fetch_ticker_news_with_retry (fun i => CallResult.exn (msgs i)) scorer
        "MSFT" none none 5 3 =
      ⟨[], 0, [⟨0, true, 0⟩, ⟨1, true, 2⟩, ⟨2, true, 4⟩]⟩ ∧
    ((fetch_ticker_news_with_retry (fun i => CallResult.exn (msgs i)) scorer
        "MSFT" none none 5 3).trace.map FetchAttempt.delay).filter
      (fun d => d ≠ 0) = [2, 4] ∧
    (2 : Nat) < 4 := by
  have e0 : fetchLoop (fun i => CallResult.exn (msgs i)) scorer 3 0 3 false =
      consTrace ⟨0, true, 0⟩
        (fetchLoop (fun i => CallResult.exn (msgs i)) scorer 3 1 2 false) := by
    have := fetchLoop_exn_step (fun i => CallResult.exn (msgs i)) scorer 3 0 2
      false (msgs 0) rfl (h 0) (by decide)
    simpa [delayFor] using this
  have e1 : fetchLoop (fun i => CallResult.exn (msgs i)) scorer 3 1 2 false =
      consTrace ⟨1, true, 2⟩
        (fetchLoop (fun i => CallResult.exn (msgs i)) scorer 3 2 1 false) := by
    have := fetchLoop_exn_step (fun i => CallResult.exn (msgs i)) scorer 3 1 1
      false (msgs 1) rfl (h 1) (by decide)
    simpa [delayFor] using this
  have e2 : fetchLoop (fun i => CallResult.exn (msgs i)) scorer 3 2 1 false =
      ⟨[], 0, [⟨2, true, 4⟩]⟩ := by
    have := fetchLoop_exn_last (fun i => CallResult.exn (msgs i)) scorer 3 2 0
      false (msgs 2) rfl (h 2) (by decide)
    simpa [delayFor] using this
  have key : fetch_ticker_news_with_retry (fun i => CallResult.exn (msgs i))
      scorer "MSFT" none none 5 3 =
      ⟨[], 0, [⟨0, true, 0⟩, ⟨1, true, 2⟩, ⟨2, true, 4⟩]⟩ := by
    rw [fetch_ticker_news_with_retry, e0, e1, e2]
    rfl
  refine ⟨key, ?_, by decide⟩
  rw [key]
  decide

/-- Witness for C4 with the constant transport failure "connection reset
by peer". -/
theorem transport_failures_exhaust_witness :
    (∀ i : Nat, exnIsPlanRejection
        ((fun _ : Nat => "connection reset by peer") i) = false) ∧
    (fetch_ticker_news_with_retry
        (fun _ => CallResult.exn "connection reset by peer") (fun _ => 0)
        "MSFT" none none 5 3 =
      ⟨[], 0, [⟨0, true, 0⟩, ⟨1, true, 2⟩, ⟨2, true, 4⟩]⟩ ∧
    ((fetch_ticker_news_with_retry
        (fun _ => CallResult.exn "connection reset by peer") (fun _ => 0)
        "MSFT" none none 5 3).trace.map FetchAttempt.delay).filter
      (fun d => d ≠ 0) = [2, 4] ∧
    (2 : Nat) < 4) :=
  have hc : exnIsPlanRejection "connection reset by peer" = false := by decide
  ⟨fun _ => hc,
    transport_failures_exhaust (fun _ => 0)
      (fun _ => "connection reset by peer") (fun _ => hc)⟩

lemma fetchLoop_no_success_empty (provider : Nat → CallResult)
    (scorer : String → ℚ) (maxRetries : Nat)
    (h : ∀ i, isNonemptySuccess (provider i) = false) :
    ∀ fuel attempt tried,
      (fetchLoop provider scorer maxRetries attempt fuel tried).articles = [] ∧
      (fetchLoop provider scorer maxRetries attempt fuel tried).sentiment = 0 := by
  intro fuel
  induction fuel with
  | zero => exact fun attempt tried => ⟨rfl, rfl⟩
  | succ n ih =>
    intro attempt tried
    rw [fetchLoop]
    cases hq : provider attempt with
    | exn msg =>
      simp only [consTrace_articles, consTrace_sentiment]
      split_ifs <;>
        first
          | exact ⟨rfl, rfl⟩
          | exact ih (attempt + 1) true
          | exact ih (attempt + 1) tried
    | resp r =>
      have hr := h attempt
      rw [hq] at hr
      simp only [isNonemptySuccess] at hr
      simp only [consTrace_articles, consTrace_sentiment]
      by_cases hct : codeTruthy r.code = true
      · simp only [hct, if_true]
        split_ifs <;>
          first
            | exact ⟨rfl, rfl⟩
            | exact ih (attempt + 1) true
            | exact ih (attempt + 1) tried
      · have hcf : codeTruthy r.code = false := by
          cases hcc : codeTruthy r.code
          · rfl
          · exact absurd hcc hct
        have hemp : r.articles = [] := by
          rw [hcf] at hr
          simpa using hr
        simp only [hcf, Bool.false_eq_true, if_false, hemp, List.isEmpty_nil,
          Bool.true_and]
        split_ifs <;>
          first
            | exact ih (attempt + 1) true
            | exact ih (attempt + 1) tried
            | exact ⟨rfl, rfl⟩

lemma fetchLoop_trace_length (provider : Nat → CallResult)
    (scorer : String → ℚ) (maxRetries : Nat) :
    ∀ fuel attempt tried,
      (fetchLoop provider scorer maxRetries attempt fuel tried).trace.length ≤
        fuel := by
  intro fuel
  induction fuel with
  | zero => exact fun attempt tried => Nat.le_refl 0
  | succ n ih =>
    intro attempt tried
    rw [fetchLoop]
    cases hq : provider attempt with
    | exn msg =>
      simp only [consTrace_trace, List.length_cons]
      split_ifs <;>
        simp [Nat.succ_le_succ, ih (attempt + 1) true, ih (attempt + 1) tried,
          processArticles]
    | resp r =>
      simp only [consTrace_trace, List.length_cons]
      split_ifs <;>
        simp [Nat.succ_le_succ, ih (attempt + 1) true, ih (attempt + 1) tried,
          processArticles]

/-- Claim C1: for every provider behavior in which no call returns a
success with articles (any mix of error responses, transport exceptions
and empty results) and any `max_retries ≥ 1`, the fetcher terminates in
the recovered outcome: exactly the empty article list and sentiment 0,
after at most `max_retries` provider calls.  The embedding returns a
plain `FetchResult` on every input — every code path of the source
returns the article/sentiment pair, no path re-raises — so totality holds
by construction. -/
theorem fetcher_never_fails (provider : Nat → CallResult)
    (scorer : String → ℚ) (ticker : String)
    (start_date end_date : Option String) (page_size maxRetries : Nat)
    (h1 : 1 ≤ maxRetries)
    (h2 : ∀ i, isNonemptySuccess (provider i) = false) :
    (fetch_ticker_news_with_retry provider scorer ticker start_date end_date
        page_size maxRetries).articles = [] ∧
    (fetch_ticker_news_with_retry provider scorer ticker start_date end_date
        page_size maxRetries).sentiment = 0 ∧
    (fetch_ticker_news_with_retry provider scorer ticker start_date end_date
        page_size maxRetries).trace.length ≤ maxRetries :=
  ⟨(fetchLoop_no_success_empty provider scorer maxRetries h2 maxRetries 0 false).1,
    (fetchLoop_no_success_empty provider scorer maxRetries h2 maxRetries 0 false).2,
    fetchLoop_trace_length provider scorer maxRetries maxRetries 0 false⟩

/-- Witness for C1: the constant transport-failure provider with
`max_retries = 3`. -/
theorem fetcher_never_fails_witness :
    1 ≤ 3 ∧
    ((fetch_ticker_news_with_retry (fun _ => CallResult.exn "boom")
        (fun _ => 0) "IBM" none none 5 3).articles = [] ∧
      (fetch_ticker_news_with_retry (fun _ => CallResult.exn "boom")
        (fun _ => 0) "IBM" none none 5 3).sentiment = 0 ∧
      (fetch_ticker_news_with_retry (fun _ => CallResult.exn "boom")
        (fun _ => 0) "IBM" none none 5 3).trace.length ≤ 3) :=
  ⟨by norm_num,
    fetcher_never_fails (fun _ => CallResult.exn "boom") (fun _ => 0) "IBM"
      none none 5 3 (by norm_num) (fun _ => rfl)⟩

end StockSent
